import Mathlib

/-!
# Verification of the Data-Pipeline repository

Shallow embedding of the two-stage weather pipeline:
`src/extract.py` (fetch-and-save) and `src/transform.py`
(load-transform-save), together with proofs of the specified properties.

External collaborators are modelled as capabilities, following the scope of
the specification: the HTTP transport is a function producing a `Response`,
the file system is a map from paths to file contents, the Python `json`
module is modelled by storing the structured document a file serializes
(its documented contract: `json.dump` followed by `json.load` returns a
structurally equal document), and `pandas.DataFrame` construction from a
dict of columns is modelled by `pdDataFrame` below.
-/

namespace DataPipeline

/-- A JSON document, as produced by `json.load` / `response.json()`:
null, booleans, numbers, strings, arrays, and objects with string keys.
Numbers are modelled as rationals. -/
inductive Json where
  | null : Json
  | bool (b : Bool) : Json
  | num (q : Rat) : Json
  | str (s : String) : Json
  | arr (elems : List Json) : Json
  | obj (fields : List (String × Json)) : Json

/-- Predicate `Json.isObj` holds of JSON objects (Python mappings): the shape of a
valid `RawWeatherDocument` at top level. -/
def Json.isObj : Json → Bool
  | .obj _ => true
  | _ => false

/-- The Python exceptions observable in this pipeline. -/
inductive PyError where
  | keyError (key : String) : PyError
  | typeError (msg : String) : PyError
  | valueError (msg : String) : PyError
  | fileNotFoundError (msg : String) : PyError
  | jsonDecodeError (msg : String) : PyError
deriving DecidableEq

/-- The text Python prints for an exception via an f-string:
`KeyError` renders as the `repr` of its key (in single quotes),
the others render as their message. -/
def PyError.message : PyError → String
  | .keyError k => "\x27" ++ k ++ "\x27"
  | .typeError m => m
  | .valueError m => m
  | .fileNotFoundError m => m
  | .jsonDecodeError m => m

/-- Python subscripting `value[key]` with a string key: a dict lookup raises
`KeyError` when the key is absent; subscripting a list, string, or
non-subscriptable value with a string key raises `TypeError`. -/
def Json.getItem : Json → String → Except PyError Json
  | .obj fields, key =>
      match fields.lookup key with
      | some v => .ok v
      | none => .error (.keyError key)
  | .arr _, _ => .error (.typeError "list indices must be integers or slices, not str")
  | .str _, _ => .error (.typeError "string indices must be integers")
  | .num _, _ => .error (.typeError "\x27float\x27 object is not subscriptable")
  | .bool _, _ => .error (.typeError "\x27bool\x27 object is not subscriptable")
  | .null, _ => .error (.typeError "\x27NoneType\x27 object is not subscriptable")

/-- A pandas `DataFrame`: named columns in order, each with its column of
values. Construction through `pdDataFrame` guarantees all columns have the
same length. -/
structure DataFrame where
  colNames : List String
  colData : List (List Json)

/-- The rows of a `DataFrame`, as the transpose of its columns. -/
def DataFrame.rows (df : DataFrame) : List (List Json) :=
  df.colData.transpose

/-- Model of `pandas.DataFrame` built from a dict of columns (as in
`pd.DataFrame({...})`): JSON arrays are array columns and every other value
is a scalar. All array columns must have equal length, else pandas raises
`ValueError: All arrays must be of the same length`; with no array column
at all it raises `ValueError: If using all scalar values, you must pass an
index`; scalars broadcast to the common length. -/
def pdDataFrame (cols : List (String × Json)) : Except PyError DataFrame :=
  let arrLens := cols.filterMap fun c =>
    match c.2 with
    | .arr xs => some xs.length
    | _ => none
  match arrLens with
  | [] => .error (.valueError "If using all scalar values, you must pass an index")
  | n :: rest =>
      if rest.all fun m => m == n then
        .ok { colNames := cols.map Prod.fst,
              colData := cols.map fun c =>
                match c.2 with
                | .arr xs => xs
                | v => List.replicate n v }
      else
        .error (.valueError "All arrays must be of the same length")

/-- The content of a file on disk: the serialization of a JSON document
(written by `json.dump`), the CSV serialization of a `DataFrame` (written
by `DataFrame.to_csv`, whose text is not valid JSON), or other text that
is not valid JSON. -/
inductive FileContent where
  | jsonDoc (doc : Json) : FileContent
  | csvDoc (df : DataFrame) : FileContent
  | textDoc (s : String) : FileContent

/-- The file-system state: each path holds a file content or is absent. -/
def FS := String → Option FileContent

/-- A file system with no files. -/
def emptyFS : FS := fun _ => none

/-- Writing a file: fully overwrites any existing file at the path and
leaves every other path unchanged (`open(path, "w")` then write). -/
def FS.write (fs : FS) (path : String) (c : FileContent) : FS :=
  fun p => if p = path then some c else fs p

namespace Extract

/-- From `extract.py`: `WeatherDataRepository`, holding the fixed raw storage
path (default `data/weather_data.json`). -/
structure WeatherDataRepository where
  storage_path : String

/-- From `extract.py`: `WeatherDataRepository.save` serializes the document with
`json.dump` and writes it at the fixed path, fully overwriting any existing
file (parent directories are created as needed by `os.makedirs`). -/
def WeatherDataRepository.save (repo : WeatherDataRepository) (fs : FS)
    (data : Json) : FS :=
  fs.write repo.storage_path (.jsonDoc data)

/-- The body of an HTTP response: either well-formed JSON or text that
`response.json()` fails to parse. -/
inductive ResponseBody where
  | valid (doc : Json) : ResponseBody
  | invalid (s : String) : ResponseBody

/-- An HTTP response from the transport capability: a status code and a
body. -/
structure Response where
  status_code : Nat
  body : ResponseBody

/-- Method `response.json()`: parses the body, raising a JSON decode error when
the body is not well-formed JSON. -/
def Response.json (r : Response) : Except PyError Json :=
  match r.body with
  | .valid doc => .ok doc
  | .invalid s => .error (.jsonDecodeError s)

/-- From `extract.py`: `WeatherService`, holding a fetcher strategy
(`WeatherDataFetcher.fetch : (latitude, longitude) → Response`) and the raw
repository. -/
structure WeatherService where
  fetcher : Rat → Rat → Response
  repository : WeatherDataRepository

/-- From `extract.py`: `WeatherService.fetch_and_save_weather_data`. The task
fetches, and on status 200 parses the body and saves the document, printing
a success message; on any other status it prints a failure message carrying
the status code and saves nothing. The task runs on a worker thread that is
immediately joined, so the caller observes the completed task; an uncaught
exception (`.error`) terminates the worker without saving. -/
def WeatherService.fetch_and_save_weather_data (svc : WeatherService)
    (fs : FS) (latitude longitude : Rat) :
    Except PyError (FS × List String) :=
  let response := svc.fetcher latitude longitude
  if response.status_code = 200 then
    match response.json with
    | .error e => .error e
    | .ok data =>
        .ok (svc.repository.save fs data,
             ["✅ Weather data successfully fetched and saved!"])
  else
    .ok (fs, ["❌ Failed to fetch data. Status code: "
                ++ toString response.status_code])

end Extract

namespace Transform

/-- From `transform.py`: `WeatherDataRepository`, holding the fixed raw storage
path (default `data/weather_data.json`). -/
structure WeatherDataRepository where
  storage_path : String

/-- The default output path of `WeatherDataRepository.save` in
`transform.py`. -/
def processedPath : String := "data/processed_weather.csv"

/-- From `transform.py`: `WeatherDataRepository.load`. Raises
`FileNotFoundError` when the fixed path does not exist; otherwise parses
the file with `json.load`, which raises a JSON decode error on content that
is not valid JSON. The file system is returned unchanged: load only reads. -/
def WeatherDataRepository.load (repo : WeatherDataRepository) (fs : FS) :
    FS × Except PyError Json :=
  match fs repo.storage_path with
  | none =>
      (fs, .error (.fileNotFoundError ("❌ File not found: " ++ repo.storage_path)))
  | some (.jsonDoc doc) => (fs, .ok doc)
  | some (.csvDoc _) =>
      (fs, .error (.jsonDecodeError "Expecting value: line 1 column 1 (char 0)"))
  | some (.textDoc _) =>
      (fs, .error (.jsonDecodeError "Expecting value: line 1 column 1 (char 0)"))

/-- From `transform.py`: `WeatherDataRepository.save` writes the DataFrame as
CSV at `output_path` with `to_csv(output_path, index=False)`, overwriting
any existing file, and prints a confirmation. In the source `output_path`
defaults to `data/processed_weather.csv` (`processedPath`). -/
def WeatherDataRepository.save (_repo : WeatherDataRepository) (fs : FS)
    (df : DataFrame) (output_path : String) : FS × List String :=
  (fs.write output_path (.csvDoc df),
   ["✅ Processed data saved to " ++ output_path])

/-- From `transform.py`: the body of the `try` block of
`OpenMeteoTransformer.transform`: read `raw_data["hourly"]["time"]`,
`raw_data["hourly"]["temperature_2m"]`, `raw_data["hourly"]["precipitation"]`
and build the DataFrame. The source subscripts `raw_data["hourly"]` once
per key; `Json.getItem` is pure so the single evaluation here yields the
identical result. -/
def OpenMeteoTransformer.transformBody (raw : Json) : Except PyError DataFrame :=
  match raw.getItem "hourly" with
  | .error e => .error e
  | .ok hourly =>
      match hourly.getItem "time" with
      | .error e => .error e
      | .ok timestamps =>
          match hourly.getItem "temperature_2m" with
          | .error e => .error e
          | .ok temperatures =>
              match hourly.getItem "precipitation" with
              | .error e => .error e
              | .ok precipitation =>
                  pdDataFrame
                    [("Timestamp", timestamps),
                     ("Temperature (°C)", temperatures),
                     ("Precipitation (mm)", precipitation)]

/-- From `transform.py`: `OpenMeteoTransformer.transform`. On success prints the
success message and returns the DataFrame; a `KeyError` is caught, the
missing key reported, and `None` returned; every other exception
propagates. The first component is the list of printed lines. -/
def OpenMeteoTransformer.transform (raw : Json) :
    List String × Except PyError (Option DataFrame) :=
  match OpenMeteoTransformer.transformBody raw with
  | .ok df => (["✅ Data transformation successful!"], .ok (some df))
  | .error (.keyError k) =>
      (["❌ Missing key in data: \x27" ++ k ++ "\x27"], .ok none)
  | .error e => ([], .error e)

/-- From `transform.py`: `WeatherTransformationCommand`, holding the repository
and a transformer strategy (`WeatherDataTransformer.transform`). -/
structure WeatherTransformationCommand where
  repository : WeatherDataRepository
  transformer : Json → List String × Except PyError (Option DataFrame)

/-- The body of the `try` block of `WeatherTransformationCommand.execute`:
load, transform, and save when the transformer returned a DataFrame.
Returns the printed lines and either the resulting file system or the
exception that escaped the body. -/
def WeatherTransformationCommand.executeBody
    (cmd : WeatherTransformationCommand) (fs : FS) :
    List String × Except PyError FS :=
  let (fs1, loaded) := cmd.repository.load fs
  match loaded with
  | .error e => ([], .error e)
  | .ok raw =>
      match cmd.transformer raw with
      | (log, .error e) => (log, .error e)
      | (log, .ok none) => (log, .ok fs1)
      | (log, .ok (some df)) =>
          let (fs2, log2) := cmd.repository.save fs1 df processedPath
          (log ++ log2, .ok fs2)

/-- From `transform.py`: `WeatherTransformationCommand.execute`. Runs the body;
any exception is caught and reported, and the command returns normally with
the file system unchanged. -/
def WeatherTransformationCommand.execute
    (cmd : WeatherTransformationCommand) (fs : FS) : FS × List String :=
  match cmd.executeBody fs with
  | (log, .ok fs2) => (fs2, log)
  | (log, .error e) =>
      (fs, log ++ ["❌ Error during transformation: " ++ e.message])

/-- From `transform.py`: `WeatherTransformationService.transform_and_save`
submits one `execute` to a worker pool and waits for it; it adds no error
handling of its own. -/
def WeatherTransformationService.transform_and_save
    (repository : WeatherDataRepository)
    (transformer : Json → List String × Except PyError (Option DataFrame))
    (fs : FS) : FS × List String :=
  WeatherTransformationCommand.execute ⟨repository, transformer⟩ fs

/-- A raw document in which one of the keys `hourly`, `time`,
`temperature_2m`, `precipitation` is absent at its expected nesting level:
the document is a mapping, and either `hourly` is absent, or `hourly` is a
mapping lacking one of the three inner keys. -/
def missingKeyInput (raw : Json) : Bool :=
  match raw with
  | .obj fields =>
      match fields.lookup "hourly" with
      | none => true
      | some (.obj h) =>
          (h.lookup "time").isNone
            || (h.lookup "temperature_2m").isNone
            || (h.lookup "precipitation").isNone
      | some _ => false
  | _ => false

/-- The first key, in the read order of the transformer, that is absent at
its expected nesting level (meaningful on inputs satisfying
`missingKeyInput`). -/
def firstMissingKey (raw : Json) : String :=
  match raw with
  | .obj fields =>
      match fields.lookup "hourly" with
      | none => "hourly"
      | some (.obj h) =>
          if (h.lookup "time").isNone then "time"
          else if (h.lookup "temperature_2m").isNone then "temperature_2m"
          else "precipitation"
      | some _ => ""
  | _ => ""

end Transform

/-! ## Concrete inputs used by witnesses and counterexamples -/

/-- The default raw storage path of both repositories. -/
def rawPath : String := "data/weather_data.json"

/-- The happy-path raw document of the specification: one hourly
observation. -/
def happyDoc : Json :=
  .obj [("hourly", .obj
    [("time", .arr [.str "2024-01-01T00:00"]),
     ("temperature_2m", .arr [.num 5.0]),
     ("precipitation", .arr [.num 0.0])])]

/-- The DataFrame the transformer produces from `happyDoc`. -/
def happyDF : DataFrame :=
  { colNames := ["Timestamp", "Temperature (°C)", "Precipitation (mm)"],
    colData := [[.str "2024-01-01T00:00"], [.num 5.0], [.num 0.0]] }

/-- The hourly mapping of `mismatchDoc`: arrays of lengths 1, 0, 0. -/
def mismatchHourly : List (String × Json) :=
  [("time", .arr [.str "2024-01-01T00:00"]),
   ("temperature_2m", .arr []),
   ("precipitation", .arr [])]

/-- The top-level fields of `mismatchDoc`. -/
def mismatchFields : List (String × Json) := [("hourly", .obj mismatchHourly)]

/-- A raw document whose hourly arrays have unequal lengths (1, 0, 0). -/
def mismatchDoc : Json := .obj mismatchFields

/-- A raw document whose `hourly` value is a list, not a mapping. -/
def listHourlyDoc : Json := .obj [("hourly", .arr [.str "x"])]

/-- A raw document whose `hourly` value is a string, not a mapping. -/
def strHourlyDoc : Json := .obj [("hourly", .str "abc")]

/-- The missing-key example of the specification:
`{"hourly": {"time": []}}`. -/
def missingDoc : Json := .obj [("hourly", .obj [("time", .arr [])])]

/-- A file system whose raw file holds `missingDoc`. -/
def missingDocFS : FS := emptyFS.write rawPath (.jsonDoc missingDoc)

/-- A well-formed raw document with empty hourly arrays. -/
def sampleDoc : Json :=
  .obj [("hourly", .obj
    [("time", .arr []), ("temperature_2m", .arr []), ("precipitation", .arr [])])]

/-- A weather service over a transport stub answering 404. -/
def stubSvc404 : Extract.WeatherService :=
  ⟨fun _ _ => ⟨404, .invalid "Not Found"⟩, ⟨rawPath⟩⟩

/-- A weather service over a transport stub answering 200 with
`sampleDoc`. -/
def stubSvc200 : Extract.WeatherService :=
  ⟨fun _ _ => ⟨200, .valid sampleDoc⟩, ⟨rawPath⟩⟩

/-- The transformation command over the default repository and the
Open-Meteo transformer. -/
def cmdDefault : Transform.WeatherTransformationCommand :=
  ⟨⟨rawPath⟩, Transform.OpenMeteoTransformer.transform⟩


/-! ## Helper lemmas -/

/-- Building a pandas DataFrame from three array columns of unequal lengths
raises the length-mismatch ValueError. -/
theorem pdDataFrame_unequal_lengths (n1 n2 n3 : String) (ts xs ps : List Json)
    (h : ¬(xs.length = ts.length ∧ ps.length = ts.length)) :
    pdDataFrame [(n1, .arr ts), (n2, .arr xs), (n3, .arr ps)] =
      .error (.valueError "All arrays must be of the same length") := by
  have hall : ([xs.length, ps.length].all fun m => m == ts.length) = false := by
    by_cases h1 : xs.length = ts.length
    · by_cases h2 : ps.length = ts.length
      · exact absurd ⟨h1, h2⟩ h
      · simp [h1, h2]
    · simp [h1]
  simp [pdDataFrame, List.filterMap, hall]

/-- On an input with a key missing at its expected nesting level, the try
block of the transformer raises a KeyError naming the first missing key in
read order. -/
theorem transformBody_missingKey (raw : Json)
    (h : Transform.missingKeyInput raw = true) :
    Transform.OpenMeteoTransformer.transformBody raw =
      .error (.keyError (Transform.firstMissingKey raw)) := by
  cases raw with
  | obj fields =>
      rcases hh : fields.lookup "hourly" with _ | v
      · simp [Transform.OpenMeteoTransformer.transformBody, Json.getItem,
              Transform.firstMissingKey, hh]
      · cases v with
        | obj hfs =>
            rcases ht : hfs.lookup "time" with _ | tv
            · simp [Transform.OpenMeteoTransformer.transformBody, Json.getItem,
                    Transform.firstMissingKey, hh, ht]
            · rcases hx : hfs.lookup "temperature_2m" with _ | xv
              · simp [Transform.OpenMeteoTransformer.transformBody, Json.getItem,
                      Transform.firstMissingKey, hh, ht, hx]
              · rcases hp : hfs.lookup "precipitation" with _ | pv
                · simp [Transform.OpenMeteoTransformer.transformBody, Json.getItem,
                        Transform.firstMissingKey, hh, ht, hx, hp]
                · exfalso
                  simp [Transform.missingKeyInput, hh, ht, hx, hp] at h
        | null => simp [Transform.missingKeyInput, hh] at h
        | bool b => simp [Transform.missingKeyInput, hh] at h
        | num q => simp [Transform.missingKeyInput, hh] at h
        | str s => simp [Transform.missingKeyInput, hh] at h
        | arr es => simp [Transform.missingKeyInput, hh] at h
  | null => simp [Transform.missingKeyInput] at h
  | bool b => simp [Transform.missingKeyInput] at h
  | num q => simp [Transform.missingKeyInput] at h
  | str s => simp [Transform.missingKeyInput] at h
  | arr es => simp [Transform.missingKeyInput] at h

/-! ## Claims -/

/-- C1: for every behaviour of the load / transform / save sequence,
`WeatherTransformationCommand.execute` catches any exception raised
anywhere in that sequence, reports it after the lines already printed, and
returns normally (with the file system unchanged) without propagating the
exception to its caller. -/
theorem execute_contains_sequence_errors
    (cmd : Transform.WeatherTransformationCommand) (fs : FS)
    (log : List String) (e : PyError)
    (h : cmd.executeBody fs = (log, .error e)) :
    cmd.execute fs = (fs, log ++ ["❌ Error during transformation: " ++ e.message]) := by
  unfold Transform.WeatherTransformationCommand.execute
  rw [h]

/-- Witness for C1: on an empty file system the load step raises
FileNotFoundError, and execute returns normally reporting it. -/
theorem execute_contains_sequence_errors_witness :
    cmdDefault.executeBody emptyFS =
      ([], .error (.fileNotFoundError "❌ File not found: data/weather_data.json")) ∧
    cmdDefault.execute emptyFS =
      (emptyFS, ["❌ Error during transformation: ❌ File not found: data/weather_data.json"]) :=
  ⟨rfl, execute_contains_sequence_errors cmdDefault emptyFS []
    (.fileNotFoundError "❌ File not found: data/weather_data.json") rfl⟩

/-- C2: for every valid RawWeatherDocument (a JSON mapping), saving it with
the raw save of `extract.py` and loading it with the raw load of
`transform.py` at the same path yields a document equal to the original. -/
theorem raw_save_load_roundtrip (path : String) (fs : FS) (doc : Json)
    (h : doc.isObj = true) :
    (Transform.WeatherDataRepository.load ⟨path⟩
      (Extract.WeatherDataRepository.save ⟨path⟩ fs doc)).2 = .ok doc := by
  simp [Transform.WeatherDataRepository.load, Extract.WeatherDataRepository.save,
        FS.write]

/-- Witness for C2: round trip of `sampleDoc` through the default path. -/
theorem raw_save_load_roundtrip_witness :
    sampleDoc.isObj = true ∧
    (Transform.WeatherDataRepository.load ⟨rawPath⟩
      (Extract.WeatherDataRepository.save ⟨rawPath⟩ emptyFS sampleDoc)).2 =
        .ok sampleDoc :=
  ⟨rfl, raw_save_load_roundtrip rawPath emptyFS sampleDoc rfl⟩

/-- C3: for every raw document with one of the four keys absent at its
expected nesting level, the transformer reports the missing key and returns
no table, and the transformation command completes without raising and
without writing anything (the file system is returned unchanged). -/
theorem transform_missing_key_no_table (raw : Json)
    (repo : Transform.WeatherDataRepository) (fs : FS)
    (hmk : Transform.missingKeyInput raw = true)
    (hfs : fs repo.storage_path = some (.jsonDoc raw)) :
    Transform.OpenMeteoTransformer.transform raw =
      (["❌ Missing key in data: \x27" ++ Transform.firstMissingKey raw ++ "\x27"],
       .ok none) ∧
    Transform.WeatherTransformationCommand.execute
        ⟨repo, Transform.OpenMeteoTransformer.transform⟩ fs =
      (fs, ["❌ Missing key in data: \x27" ++ Transform.firstMissingKey raw ++ "\x27"]) := by
  have hb := transformBody_missingKey raw hmk
  have htr : Transform.OpenMeteoTransformer.transform raw =
      (["❌ Missing key in data: \x27" ++ Transform.firstMissingKey raw ++ "\x27"],
       .ok none) := by
    unfold Transform.OpenMeteoTransformer.transform
    rw [hb]
  refine ⟨htr, ?_⟩
  unfold Transform.WeatherTransformationCommand.execute
    Transform.WeatherTransformationCommand.executeBody
  simp [Transform.WeatherDataRepository.load, hfs, htr]

/-- Witness for C3: the documented example, a raw file holding
a document whose hourly mapping has only `time`. -/
theorem transform_missing_key_no_table_witness :
    Transform.missingKeyInput missingDoc = true ∧
    missingDocFS rawPath = some (.jsonDoc missingDoc) ∧
    Transform.OpenMeteoTransformer.transform missingDoc =
      (["❌ Missing key in data: \x27temperature_2m\x27"], .ok none) ∧
    Transform.WeatherTransformationCommand.execute
        ⟨⟨rawPath⟩, Transform.OpenMeteoTransformer.transform⟩ missingDocFS =
      (missingDocFS, ["❌ Missing key in data: \x27temperature_2m\x27"]) :=
  ⟨rfl, rfl,
   (transform_missing_key_no_table missingDoc ⟨rawPath⟩ missingDocFS rfl rfl).1,
   (transform_missing_key_no_table missingDoc ⟨rawPath⟩ missingDocFS rfl rfl).2⟩

/-- C4: on the documented happy-path input the transformer succeeds with a
table of exactly one row whose columns are the three fixed column names in
order. -/
theorem transform_happy_path :
    Transform.OpenMeteoTransformer.transform happyDoc =
      (["✅ Data transformation successful!"], .ok (some happyDF)) ∧
    happyDF.colNames = ["Timestamp", "Temperature (°C)", "Precipitation (mm)"] ∧
    happyDF.rows = [[.str "2024-01-01T00:00", .num 5.0, .num 0.0]] :=
  ⟨rfl, rfl, rfl⟩

/-- C5: for every fetch response whose status code is not 200,
`fetch_and_save_weather_data` returns the file system exactly as it was
(pre-existing file unchanged, absent file still absent), prints the failure
message carrying the status code, and raises no exception. -/
theorem fetch_bad_status_leaves_storage_untouched
    (svc : Extract.WeatherService) (fs : FS) (lat lon : Rat)
    (h : (svc.fetcher lat lon).status_code ≠ 200) :
    svc.fetch_and_save_weather_data fs lat lon =
      .ok (fs, ["❌ Failed to fetch data. Status code: "
                  ++ toString (svc.fetcher lat lon).status_code]) := by
  simp [Extract.WeatherService.fetch_and_save_weather_data, h]

/-- Witness for C5: a transport stub answering 404 on the empty file
system. -/
theorem fetch_bad_status_leaves_storage_untouched_witness :
    (stubSvc404.fetcher 0 0).status_code ≠ 200 ∧
    stubSvc404.fetch_and_save_weather_data emptyFS 0 0 =
      .ok (emptyFS, ["❌ Failed to fetch data. Status code: 404"]) :=
  ⟨by decide,
   fetch_bad_status_leaves_storage_untouched stubSvc404 emptyFS 0 0 (by decide)⟩

/-- C6: for every fetch response with status 200 and a well-formed JSON
body, `fetch_and_save_weather_data` saves exactly that body at the raw
storage path (the file afterwards holds the structurally equal document)
and prints the success message. -/
theorem fetch_success_saves_body
    (svc : Extract.WeatherService) (fs : FS) (lat lon : Rat) (doc : Json)
    (h1 : (svc.fetcher lat lon).status_code = 200)
    (h2 : (svc.fetcher lat lon).body = .valid doc) :
    svc.fetch_and_save_weather_data fs lat lon =
      .ok (svc.repository.save fs doc,
           ["✅ Weather data successfully fetched and saved!"]) ∧
    svc.repository.save fs doc svc.repository.storage_path =
      some (.jsonDoc doc) := by
  constructor
  · simp [Extract.WeatherService.fetch_and_save_weather_data, h1,
          Extract.Response.json, h2]
  · simp [Extract.WeatherDataRepository.save, FS.write]

/-- Witness for C6: a transport stub answering 200 with `sampleDoc` on the
empty file system. -/
theorem fetch_success_saves_body_witness :
    (stubSvc200.fetcher 0 0).status_code = 200 ∧
    (stubSvc200.fetcher 0 0).body = .valid sampleDoc ∧
    (stubSvc200.fetch_and_save_weather_data emptyFS 0 0 =
      .ok (stubSvc200.repository.save emptyFS sampleDoc,
           ["✅ Weather data successfully fetched and saved!"]) ∧
     stubSvc200.repository.save emptyFS sampleDoc
        stubSvc200.repository.storage_path = some (.jsonDoc sampleDoc)) :=
  ⟨rfl, rfl, fetch_success_saves_body stubSvc200 emptyFS 0 0 sampleDoc rfl rfl⟩

/-- C7 (counterexample to the claim as stated): on a raw document whose
hourly arrays have lengths 1, 0, 0 the transformer does not produce a
malformed or truncated table: the DataFrame constructor raises an explicit
ValueError, which escapes the KeyError handler. -/
theorem transform_length_mismatch_not_table :
    Transform.OpenMeteoTransformer.transform mismatchDoc =
      ([], .error (.valueError "All arrays must be of the same length")) := rfl

/-- C7 (amended): for every raw document whose hourly `time`,
`temperature_2m` and `precipitation` arrays have unequal lengths, the
transformer raises an explicit ValueError (from the DataFrame constructor)
that propagates to the caller, and yields no table. -/
theorem transform_length_mismatch_raises
    (f hfields : List (String × Json)) (ts xs ps : List Json)
    (hh : f.lookup "hourly" = some (.obj hfields))
    (ht : hfields.lookup "time" = some (.arr ts))
    (hx : hfields.lookup "temperature_2m" = some (.arr xs))
    (hp : hfields.lookup "precipitation" = some (.arr ps))
    (hne : ¬(xs.length = ts.length ∧ ps.length = ts.length)) :
    Transform.OpenMeteoTransformer.transform (.obj f) =
      ([], .error (.valueError "All arrays must be of the same length")) := by
  have hbody : Transform.OpenMeteoTransformer.transformBody (.obj f) =
      .error (.valueError "All arrays must be of the same length") := by
    simp only [Transform.OpenMeteoTransformer.transformBody, Json.getItem,
               hh, ht, hx, hp]
    exact pdDataFrame_unequal_lengths "Timestamp" "Temperature (°C)"
      "Precipitation (mm)" ts xs ps hne
  unfold Transform.OpenMeteoTransformer.transform
  rw [hbody]

/-- Witness for the amended C7: the concrete mismatched document. -/
theorem transform_length_mismatch_raises_witness :
    mismatchFields.lookup "hourly" = some (.obj mismatchHourly) ∧
    mismatchHourly.lookup "time" = some (.arr [.str "2024-01-01T00:00"]) ∧
    mismatchHourly.lookup "temperature_2m" = some (.arr []) ∧
    mismatchHourly.lookup "precipitation" = some (.arr []) ∧
    ¬(([] : List Json).length = [Json.str "2024-01-01T00:00"].length ∧
      ([] : List Json).length = [Json.str "2024-01-01T00:00"].length) ∧
    Transform.OpenMeteoTransformer.transform (.obj mismatchFields) =
      ([], .error (.valueError "All arrays must be of the same length")) :=
  ⟨rfl, rfl, rfl, rfl, by decide,
   transform_length_mismatch_raises mismatchFields mismatchHourly
     [.str "2024-01-01T00:00"] [] [] rfl rfl rfl rfl (by decide)⟩

/-- C8: for every file system in which the fixed path is absent, the raw
load raises FileNotFoundError (the storage-not-found condition, a distinct
constructor from the JSON parse failure) and returns the file system
unchanged: the path is still absent afterwards. -/
theorem load_missing_file_not_found
    (repo : Transform.WeatherDataRepository) (fs : FS)
    (h : fs repo.storage_path = none) :
    repo.load fs =
      (fs, .error (.fileNotFoundError ("❌ File not found: " ++ repo.storage_path))) := by
  simp [Transform.WeatherDataRepository.load, h]

/-- Witness for C8: the default path on the empty file system. -/
theorem load_missing_file_not_found_witness :
    (emptyFS rawPath = none) ∧
    Transform.WeatherDataRepository.load ⟨rawPath⟩ emptyFS =
      (emptyFS, .error (.fileNotFoundError "❌ File not found: data/weather_data.json")) :=
  ⟨rfl, load_missing_file_not_found ⟨rawPath⟩ emptyFS rfl⟩

/-- C9: both saves fully overwrite: saving two documents (or two tables) in
sequence at the same path leaves the file system exactly as after saving
only the second one (no append, no duplication). -/
theorem save_overwrites
    (repoE : Extract.WeatherDataRepository)
    (repoT : Transform.WeatherDataRepository) (fs : FS)
    (d1 d2 : Json) (df1 df2 : DataFrame) (path : String) :
    repoE.save (repoE.save fs d1) d2 = repoE.save fs d2 ∧
    (repoT.save (repoT.save fs df1 path).1 df2 path).1 =
      (repoT.save fs df2 path).1 := by
  constructor
  · funext p
    by_cases hp : p = repoE.storage_path <;>
      simp [Extract.WeatherDataRepository.save, FS.write, hp]
  · funext p
    by_cases hp : p = path <;>
      simp [Transform.WeatherDataRepository.save, FS.write, hp]

/-- C10: the failure containment of the transformer covers only KeyError:
on a raw document whose `hourly` value is a list, and on one whose `hourly`
value is a string, the transformer raises a TypeError that propagates to
the caller instead of returning no table. -/
theorem transform_non_mapping_raises :
    Transform.OpenMeteoTransformer.transform listHourlyDoc =
      ([], .error (.typeError "list indices must be integers or slices, not str")) ∧
    Transform.OpenMeteoTransformer.transform strHourlyDoc =
      ([], .error (.typeError "string indices must be integers")) :=
  ⟨rfl, rfl⟩

end DataPipeline
